import Mathlib

/-!
Verification development for the sandbox watchdog control plane
(`src/app/api/watchdog/watchdog.ts`, `src/app/watchdog/route.ts`,
`src/app/api/watchdog/route.ts`, `src/app/internal/keepalive/route.ts`,
`src/app/api/_lib/monitoringToggle.ts`).

The TypeScript code is shallowly embedded: timestamps (both `Date.now()`
millisecond values and RFC 3339 strings round-tripped through
`new Date(s).getTime()`) are modelled as `Nat` milliseconds; every network
interaction (fetch of the health endpoint, the sandbox provider, the edge
config store) is resolved through an explicit oracle recorded in an
environment structure, and thrown JavaScript exceptions are modelled with
`Except String`.  Log calls and store writes that the claims talk about are
reified into an event trace.
-/

deriving instance DecidableEq for Except

namespace Watchdog

/-! ### Constants (watchdog.ts lines 7-11, 337, 344) -/

def HEALTH_ENDPOINT : String := "/api/health"
def KEEPALIVE_ENDPOINT : String := "/internal/keepalive"
def ROTATION_INTERVAL_MS : Nat := 5 * 60 * 60 * 1000
def HEALTH_TIMEOUT_MS : Nat := 8000
def DRAIN_GRACE_MS : Nat := 10 * 60 * 1000
def READINESS_DEADLINE_MS : Nat := 10 * 60 * 1000
def READINESS_POLL_MS : Nat := 5000

/-! ### JavaScript string helpers

`String.prototype.trim` and `String.prototype.toLowerCase`, embedded as
structural functions over the character list so that concrete evaluation
reduces in the kernel. -/

def jsToLower (s : String) : String :=
  String.mk (s.data.map Char.toLower)

def jsTrim (s : String) : String :=
  String.mk (((s.data.dropWhile Char.isWhitespace).reverse.dropWhile
    Char.isWhitespace).reverse)

/-! ### Feature flag (src/app/api/_lib/monitoringToggle.ts)

`monitoringRoutesDisabled()` reads `NEXT_APP_SKIP_MONITORING_ROUTES`;
the environment variable is passed explicitly (`none` = unset). -/

def monitoringRoutesDisabled (flagValue : Option String) : Bool :=
  match flagValue with
  | none => false
  | some value =>
    -- `if (!value) return false` catches the empty string
    if value = "" then false
    else
      let normalized := jsToLower (jsTrim value)
      normalized != "" && normalized != "false" && normalized != "0" &&
        normalized != "off"

/-! ### Data model (watchdog.ts lines 41-72) -/

inductive SandboxStatus where
  | provisioning
  | healthy
  | unhealthy
deriving Repr, DecidableEq

structure SandboxRecord where
  id : String
  url : String
  createdAt : Nat
  status : SandboxStatus
deriving Repr, DecidableEq

structure DrainingSandboxRecord where
  sandbox : SandboxRecord
  drainStartedAt : Nat
deriving Repr, DecidableEq

/-- `lastFailure`: `{ reason, at }`; the `at` field is called `atMs` here
because `at` is reserved in Lean. -/
structure FailureRecord where
  reason : String
  atMs : Nat
deriving Repr, DecidableEq

structure SandboxState where
  active : Option SandboxRecord
  draining : List DrainingSandboxRecord
  lastRotationAt : Option Nat
  lastCheckAt : Option Nat
  lastFailure : Option FailureRecord
deriving Repr, DecidableEq

def DEFAULT_STATE : SandboxState :=
  { active := none, draining := [], lastRotationAt := none,
    lastCheckAt := none, lastFailure := none }

/-- A JSON object payload of the health endpoint (the program never inspects
the fields, only whether parsing succeeded). -/
abbrev HealthPayload := List (String × String)

inductive SandboxHealth where
  | healthy (payload : HealthPayload)
  | unhealthy (reason : String)
deriving Repr, DecidableEq

def SandboxHealth.isHealthy : SandboxHealth → Bool
  | .healthy _ => true
  | .unhealthy _ => false

/-! ### Health prober (watchdog.ts `checkSandboxHealth`, lines 182-214) -/

/-- Body of the health response, as seen by `response.json().catch(() => ({}))`. -/
inductive JsonBody where
  | parsed (payload : HealthPayload)
  | malformed
deriving Repr, DecidableEq

/-- Outcome of the single `fetch` issued by `checkSandboxHealth`:
an HTTP response, a network error, or expiry of the 8 s abort timer
(which rejects the fetch with the abort error's message). -/
inductive FetchOutcome where
  | response (status : Nat) (body : JsonBody)
  | networkError (message : String)
  | timeoutExpired (abortMessage : String)
deriving Repr, DecidableEq

structure RequestSpec where
  method : String
  url : String
  headers : List (String × String)
deriving Repr, DecidableEq

/-- The request built by `checkSandboxHealth` (watchdog.ts lines 185-195). -/
def healthProbeRequest (sandbox : SandboxRecord) : RequestSpec :=
  { method := "GET"
    url := sandbox.url ++ HEALTH_ENDPOINT
    headers := [("user-agent", "sandbox-watchdog/1.0"),
                ("x-sandbox-bypass", "true")] }

def checkSandboxHealth (sandbox : SandboxRecord) (outcome : FetchOutcome) :
    SandboxHealth :=
  match outcome with
  | .response status body =>
    -- `if (!response.ok)` : ok means status in [200, 299]
    if 200 ≤ status ∧ status ≤ 299 then
      match body with
      | .parsed payload => .healthy payload
      | .malformed => .healthy []
    else
      .unhealthy ("health-status-" ++ toString status)
  | .networkError msg => .unhealthy msg
  | .timeoutExpired msg => .unhealthy msg

/-! ### Keepalive route (src/app/internal/keepalive/route.ts) -/

structure HttpResponse where
  status : Nat
  body : String
deriving Repr, DecidableEq

/-- `GET /internal/keepalive`: `token` is the `x-keepalive-token` header
(`none` when absent), `expected` is `process.env.KEEPALIVE_TOKEN`
(`none` when unset).  Mirrors `if (!expected || token !== expected)`. -/
def keepaliveGET (token : Option String) (expected : Option String) :
    HttpResponse :=
  if expected == none || expected == some "" || token != expected then
    { status := 401, body := "Missing or invalid keepalive token" }
  else
    { status := 200, body := "sandbox keepalive acknowledged" }

/-! ### Edge config operations (watchdog.ts lines 499-524) -/

def EDGE_KEY_ACTIVE : String := "sandbox_active_url"
def EDGE_KEY_LAST_KNOWN_GOOD : String := "sandbox_last_known_good_url"
def EDGE_KEY_PREVIOUS : String := "sandbox_previous_url"
def EDGE_KEY_STATE : String := "sandbox_state"

/-- Values written to the edge config store: the routing pointers hold URL
strings, `sandbox_state` holds the state document. -/
inductive EdgeValue where
  | str (s : String)
  | state (s : SandboxState)
deriving Repr, DecidableEq

inductive EdgeConfigOperation where
  | upsert (key : String) (value : EdgeValue)
  | del (key : String)
deriving Repr, DecidableEq

def EdgeConfigOperation.key : EdgeConfigOperation → String
  | .upsert k _ => k
  | .del k => k

/-- The batch built by `promoteSandbox` (watchdog.ts lines 350-372):
always the `sandbox_active_url` and `sandbox_last_known_good_url` upserts,
plus `sandbox_previous_url` when `previous?.url` is truthy. -/
def promoteOps (fresh : SandboxRecord) (previous : Option SandboxRecord) :
    List EdgeConfigOperation :=
  [.upsert EDGE_KEY_ACTIVE (.str fresh.url),
   .upsert EDGE_KEY_LAST_KNOWN_GOOD (.str fresh.url)] ++
  (match previous with
   | some p => if p.url = "" then [] else [.upsert EDGE_KEY_PREVIOUS (.str p.url)]
   | none => [])

/-! ### Event trace

Each network side effect the claims talk about (the `log` calls and the
store `PATCH` requests) is reified as one trace event. -/

inductive DecommissionLog where
  | success
  | notFound
  | failed (message : String)
deriving Repr, DecidableEq

inductive TickEvent where
  | tickLog (forceProvision : Bool)
  | probeActive (url : String)
  | keepalive (url : String)
  | provisionStart (reason : String)
  | promote (ops : List EdgeConfigOperation)
  | decommissionGet (id : String)
  | decommissionStop (id : String)
  | decommissionResult (id : String) (outcome : DecommissionLog)
  | persistAttempt (value : SandboxState)
deriving Repr, DecidableEq

def isPromoteEvent : TickEvent → Bool
  | .promote _ => true
  | _ => false

/-- Store writes carried by an event: a `promote` event is the batched
pointer write, a `persistAttempt` is the single `sandbox_state` upsert
issued by `persistState` (watchdog.ts lines 412-420). -/
def eventWrites : TickEvent → List EdgeConfigOperation
  | .promote ops => ops
  | .persistAttempt st => [.upsert EDGE_KEY_STATE (.state st)]
  | _ => []

def traceWrites (events : List TickEvent) : List EdgeConfigOperation :=
  (events.map eventWrites).flatten

/-! ### Provider errors and decommission (watchdog.ts lines 376-395, 546-549) -/

structure ProviderError where
  message : String
  responseStatus : Option Nat
deriving Repr, DecidableEq

def isSandboxNotFound (e : ProviderError) : Bool :=
  e.responseStatus == some 404

/-- Oracle for one `decommissionSandbox` call: the outcome of
`Sandbox.get` and, if that succeeds, of `instance.stop()`. -/
structure DecommissionOracle where
  getResult : Except ProviderError Unit
  stopResult : Except ProviderError Unit

/-- The single `catch` of `decommissionSandbox` classifies whichever error
was thrown by `Sandbox.get` or `instance.stop`; a 404 takes the early
`return` (logged `not-found`, treated as success), anything else is logged
at error level.  The function never rethrows. -/
def decommissionOutcome (o : DecommissionOracle) : DecommissionLog :=
  match o.getResult with
  | .error e => if isSandboxNotFound e then .notFound else .failed e.message
  | .ok _ =>
    match o.stopResult with
    | .error e => if isSandboxNotFound e then .notFound else .failed e.message
    | .ok _ => .success

/-- Calls made by `decommissionSandbox`: `Sandbox.get` always, then
`instance.stop` only when the get succeeded, then the logged outcome. -/
def decommissionEvents (o : DecommissionOracle) (id : String) :
    List TickEvent :=
  match o.getResult with
  | .error _ => [.decommissionGet id, .decommissionResult id (decommissionOutcome o)]
  | .ok _ => [.decommissionGet id, .decommissionStop id,
              .decommissionResult id (decommissionOutcome o)]

/-- `now - new Date(drainStartedAt).getTime() >= DRAIN_GRACE_MS`, computed
over the integers as in JavaScript (a freshly pushed record can make the
difference negative). -/
def drainAged (now drainStartedAt : Nat) : Bool :=
  decide ((now : Int) - (drainStartedAt : Int) ≥ (DRAIN_GRACE_MS : Int))

/-- The drain loop of `ensureSandboxHealth` (watchdog.ts lines 166-177):
aged records are decommissioned and dropped, the rest survive in order. -/
def drainPass (now : Nat) (oracle : String → DecommissionOracle) :
    List DrainingSandboxRecord → List TickEvent × List DrainingSandboxRecord
  | [] => ([], [])
  | d :: rest =>
    let tail := drainPass now oracle rest
    if drainAged now d.drainStartedAt then
      (decommissionEvents (oracle d.sandbox.id) d.sandbox.id ++ tail.1, tail.2)
    else
      (tail.1, d :: tail.2)

/-! ### Readiness wait (watchdog.ts `waitForSandboxReadiness`, lines 336-348) -/

/-- Poll `checkSandboxHealth` every `READINESS_POLL_MS` while the clock is
before `deadline`; throw (as `Except.error`) once it is not.  `probe t` is
the fetch outcome of the poll issued at time `t`. -/
def waitForSandboxReadiness (sandbox : SandboxRecord)
    (probe : Nat → FetchOutcome) (now deadline : Nat) : Except String Unit :=
  if h : now < deadline then
    match checkSandboxHealth sandbox (probe now) with
    | .healthy _ => .ok ()
    | .unhealthy _ =>
      waitForSandboxReadiness sandbox probe (now + READINESS_POLL_MS) deadline
  else
    .error ("sandbox " ++ sandbox.id ++ " failed to become healthy in time")
termination_by deadline - now
decreasing_by simp only [READINESS_POLL_MS]; omega

/-! ### Assessment (watchdog.ts lines 124-147) -/

/-- `rotationDue` (watchdog.ts lines 126-128): false when `lastRotationAt`
is null/undefined, otherwise `now - lastRotationAt >= ROTATION_INTERVAL_MS`
over the integers. -/
def rotationDue (lastRotationAt : Option Nat) (now : Nat) : Bool :=
  match lastRotationAt with
  | none => false
  | some t => decide ((now : Int) - (t : Int) ≥ (ROTATION_INTERVAL_MS : Int))

/-- The `health` ternary (watchdog.ts lines 130-134). -/
def assessHealth (forceProvision : Bool) (active : Option SandboxRecord)
    (fetch : FetchOutcome) : SandboxHealth :=
  if forceProvision then .unhealthy "force-provision-request"
  else
    match active with
    | some a => checkSandboxHealth a fetch
    | none => .unhealthy "no-active-sandbox"

def shouldProvision (forceProvision : Bool) (health : SandboxHealth)
    (due : Bool) : Bool :=
  forceProvision || !health.isHealthy || due

/-- The provision `reason` (watchdog.ts lines 143-147); the
`?? 'health-check-failed'` fallback is dead code because the unhealthy
variant always carries a reason. -/
def provisionReason (forceProvision : Bool) (health : SandboxHealth) : String :=
  if forceProvision then "force-provision-request"
  else
    match health with
    | .unhealthy r => r
    | .healthy _ => "rotation-due"

/-- Probe and keepalive events of the assessment phase: the active sandbox
is probed only when not force-provisioning, and the keepalive ping fires
only on `health.healthy && active`. -/
def assessEvents (forceProvision : Bool) (active : Option SandboxRecord)
    (health : SandboxHealth) : List TickEvent :=
  (if forceProvision then []
   else
     match active with
     | some a => [.probeActive (a.url ++ HEALTH_ENDPOINT)]
     | none => []) ++
  (match active with
   | some a => if health.isHealthy then [.keepalive (a.url ++ KEEPALIVE_ENDPOINT)]
               else []
   | none => [])

/-! ### One tick (watchdog.ts `ensureSandboxHealth`, lines 116-180) -/

/-- Oracle for the effects of one `ensureSandboxHealth` call.  `now` is the
`Date.now()` captured at line 125; `promoteTime` and `drainTime` are the
later `new Date()` readings of lines 159 and 162 (the wall clock is
monotone, so in any real execution `now ≤ promoteTime` and
`now ≤ drainTime`). -/
structure TickEnv where
  now : Nat
  activeFetch : FetchOutcome
  provisionResult : Except String SandboxRecord
  waitStart : Nat
  readinessProbe : Nat → FetchOutcome
  promoteResult : Except String Unit
  promoteTime : Nat
  drainTime : Nat
  decommission : String → DecommissionOracle

/-- `ensureSandboxHealth(state, {forceProvision})`.  `cloneState` produces a
structurally independent copy, which is the identity in this embedding;
the `!nextState.draining` backfill is likewise the identity because
`draining` is always a list here.  Returns the event trace together with
either the next state or the thrown error. -/
def ensureSandboxHealth (state : SandboxState) (forceProvision : Bool)
    (env : TickEnv) : List TickEvent × Except String SandboxState :=
  let active := state.active
  let due := rotationDue state.lastRotationAt env.now
  let health := assessHealth forceProvision active env.activeFetch
  let preEvents := assessEvents forceProvision active health
  if shouldProvision forceProvision health due then
    let reason := provisionReason forceProvision health
    let evs0 := preEvents ++ [.provisionStart reason]
    match env.provisionResult with
    | .error e => (evs0, .error e)
    | .ok newSandbox =>
      match waitForSandboxReadiness newSandbox env.readinessProbe
          env.waitStart (env.waitStart + READINESS_DEADLINE_MS) with
      | .error e => (evs0, .error e)
      | .ok _ =>
        let ops := promoteOps newSandbox active
        let evs1 := evs0 ++ [.promote ops]
        match env.promoteResult with
        | .error e => (evs1, .error e)
        | .ok _ =>
          let extended := state.draining ++
            (match active with
             | some a => [{ sandbox := a, drainStartedAt := env.drainTime }]
             | none => [])
          let drained := drainPass env.now env.decommission extended
          (evs1 ++ drained.1,
           .ok { state with
                  active := some { newSandbox with status := .healthy },
                  lastRotationAt := some env.promoteTime,
                  draining := drained.2 })
  else
    let drained := drainPass env.now env.decommission state.draining
    (preEvents ++ drained.1, .ok { state with draining := drained.2 })

/-! ### The handler (watchdog.ts `handler`, lines 82-114) -/

/-- Oracle for one `handler` call: the feature flag value, the outcome of
`loadState()` (a thrown store read error is `Except.error`), the tick
oracle, the `new Date()` readings of lines 96 and 107, and the outcomes of
the two `persistState` calls. -/
structure HandlerEnv where
  monitoringFlag : Option String
  loadResult : Except String SandboxState
  tickEnv : TickEnv
  checkAt : Nat
  persistSuccessResult : Except String Unit
  failAt : Nat
  persistFailureResult : Except String Unit

/-- The `catch` block (watchdog.ts lines 100-111): set `lastFailure` on the
loaded state, persist it, and return the 500 response.  The persist call is
not guarded, so its failure escapes the handler (`Except.error`). -/
def handlerCatch (state : SandboxState) (msg : String)
    (events : List TickEvent) (env : HandlerEnv) :
    List TickEvent × Except String HttpResponse :=
  let failedState := { state with
    lastFailure := some { reason := msg, atMs := env.failAt } }
  let events := events ++ [.persistAttempt failedState]
  match env.persistFailureResult with
  | .ok _ => (events, .ok { status := 500, body := "watchdog failure" })
  | .error e => (events, .error e)

/-- `handler(options)`.  Note that `loadState()` runs before the `try`
block, so a store read error there is not caught.  The result is the event
trace plus either the returned `Response` or the uncaught error. -/
def handler (forceProvision : Bool) (env : HandlerEnv) :
    List TickEvent × Except String HttpResponse :=
  if monitoringRoutesDisabled env.monitoringFlag then
    ([], .ok { status := 200, body := "watchdog routes disabled" })
  else
    match env.loadResult with
    | .error e => ([], .error e)
    | .ok state =>
      let tick := ensureSandboxHealth state forceProvision env.tickEnv
      let events := TickEvent.tickLog forceProvision :: tick.1
      match tick.2 with
      | .ok nextState =>
        let finalState := { nextState with
          lastCheckAt := some env.checkAt, lastFailure := none }
        let events := events ++ [.persistAttempt finalState]
        match env.persistSuccessResult with
        | .ok _ => (events, .ok { status := 200, body := "ok" })
        | .error msg => handlerCatch state msg events env
      | .error msg => handlerCatch state msg events env

/-! ### HTTP routes -/

/-- An incoming request; `queryFlags` are the query-string parameter names. -/
structure RouteRequest where
  method : String
  queryFlags : List String
deriving Repr, DecidableEq

/-- `GET` of src/app/watchdog/route.ts: declared with no request parameter,
it simply returns `watchdogHandler()` — no options, so `forceProvision`
defaults to `false` whatever the request carries. -/
def watchdogRouteGET (request : RouteRequest) (env : HandlerEnv) :
    List TickEvent × Except String HttpResponse :=
  handler false env

/-- `POST` of src/app/watchdog/route.ts (same body as `GET`). -/
def watchdogRoutePOST (request : RouteRequest) (env : HandlerEnv) :
    List TickEvent × Except String HttpResponse :=
  handler false env

/-- `GET` of src/app/api/watchdog/route.ts: returns
`new Response(null, { status: 404 })` when the monitoring flag disables the
routes, otherwise `watchdogHandler()`. -/
def apiWatchdogRouteGET (request : RouteRequest) (env : HandlerEnv) :
    List TickEvent × Except String HttpResponse :=
  if monitoringRoutesDisabled env.monitoringFlag then
    ([], .ok { status := 404, body := "" })
  else
    handler false env

/-- `POST` of src/app/api/watchdog/route.ts (same body as `GET`). -/
def apiWatchdogRoutePOST (request : RouteRequest) (env : HandlerEnv) :
    List TickEvent × Except String HttpResponse :=
  if monitoringRoutesDisabled env.monitoringFlag then
    ([], .ok { status := 404, body := "" })
  else
    handler false env

/-! ### Concrete fixtures used by the witness theorems -/

def sampleSandbox1 : SandboxRecord :=
  { id := "sbx-1", url := "https://sbx-1.example", createdAt := 1000,
    status := .healthy }

def sampleSandbox2 : SandboxRecord :=
  { id := "sbx-2", url := "https://sbx-2.example", createdAt := 2000,
    status := .provisioning }

def sampleOracleOk : DecommissionOracle :=
  { getResult := .ok (), stopResult := .ok () }

def sampleState1 : SandboxState :=
  { active := some sampleSandbox1, draining := [], lastRotationAt := none,
    lastCheckAt := none, lastFailure := none }

/-- A tick oracle under which provisioning succeeds, the first readiness
poll is healthy and the promotion write succeeds. -/
def samplePromoteEnv : TickEnv :=
  { now := 10000
    activeFetch := .response 200 (.parsed [])
    provisionResult := .ok sampleSandbox2
    waitStart := 11000
    readinessProbe := fun _ => .response 200 (.parsed [])
    promoteResult := .ok ()
    promoteTime := 12000
    drainTime := 12500
    decommission := fun _ => sampleOracleOk }

/-- A tick oracle under which every readiness poll times out. -/
def sampleTimeoutEnv : TickEnv :=
  { samplePromoteEnv with
    activeFetch := .response 503 .malformed
    readinessProbe := fun _ => .networkError "connect ECONNREFUSED" }

/-- A handler oracle for a healthy no-provision tick. -/
def sampleHandlerEnv : HandlerEnv :=
  { monitoringFlag := none
    loadResult := .ok sampleState1
    tickEnv := samplePromoteEnv
    checkAt := 20000
    persistSuccessResult := .ok ()
    failAt := 21000
    persistFailureResult := .ok () }

def sampleRequestForce : RouteRequest := { method := "GET", queryFlags := ["force"] }

def sampleRequestPlain : RouteRequest := { method := "GET", queryFlags := [] }

def envFlagTrue : HandlerEnv :=
  { sampleHandlerEnv with monitoringFlag := some "true" }

def envLoadFail : HandlerEnv :=
  { sampleHandlerEnv with loadResult := .error "edge-config-read-failed" }

/-- A tick oracle whose provisioning attempt fails after retries. -/
def sampleProvisionFailEnv : TickEnv :=
  { samplePromoteEnv with
    activeFetch := .response 503 .malformed
    provisionResult := .error "provision-exhausted" }

def envTickFail : HandlerEnv :=
  { sampleHandlerEnv with tickEnv := sampleProvisionFailEnv }

/-- A handler oracle whose tick fails and whose catch-block persist also
fails. -/
def envCatchPersistFail : HandlerEnv :=
  { envTickFail with
    persistFailureResult := .error "edge-config-update-failed: 503 unavailable" }

/-- A handler oracle whose tick succeeds but whose success-path persist
fails (the catch-block persist succeeds). -/
def envPersistFail : HandlerEnv :=
  { sampleHandlerEnv with
    persistSuccessResult := .error "edge-config-update-failed: 500 oops" }

def sampleDrainRecord : DrainingSandboxRecord :=
  { sandbox := { id := "sbx-0", url := "https://sbx-0.example", createdAt := 0,
                 status := .unhealthy },
    drainStartedAt := 0 }

def sampleDrainState : SandboxState :=
  { active := some sampleSandbox1, draining := [sampleDrainRecord],
    lastRotationAt := none, lastCheckAt := none, lastFailure := none }

/-- A tick oracle 11 minutes after `sampleDrainRecord` started draining,
with a healthy active sandbox. -/
def sampleDrainEnv : TickEnv :=
  { samplePromoteEnv with now := 660000 }

/-- A handler oracle whose tick provisions sbx-2 but every readiness poll
fails, so the 10-minute readiness deadline elapses. -/
def envTimeout : HandlerEnv :=
  { sampleHandlerEnv with tickEnv := sampleTimeoutEnv }

/-- The state the catch block persists when the readiness wait of sandbox
`fresh` timed out, with the failure recorded at `failAt`
(watchdog.ts lines 107-108 and 347). -/
def readinessTimeoutState (state : SandboxState) (fresh : SandboxRecord) (failAt : Nat) : SandboxState :=
  { state with lastFailure := some { reason := "sandbox " ++ fresh.id ++ " failed to become healthy in time", atMs := failAt } }

/-! ### Helper lemmas -/

/-- When every poll comes back unhealthy, the readiness wait runs the clock
out and throws the timeout error (auxiliary fuel-indexed form). -/
theorem waitForSandboxReadiness_times_out_aux (sandbox : SandboxRecord)
    (probe : Nat → FetchOutcome)
    (h : ∀ t, (checkSandboxHealth sandbox (probe t)).isHealthy = false) :
    ∀ fuel now deadline, deadline - now ≤ fuel →
      waitForSandboxReadiness sandbox probe now deadline =
        .error ("sandbox " ++ sandbox.id ++ " failed to become healthy in time") := by
  intro fuel
  induction fuel with
  | zero =>
    intro now deadline hle
    rw [waitForSandboxReadiness]
    have hnd : ¬ now < deadline := by omega
    simp [hnd]
  | succ n ih =>
    intro now deadline hle
    rw [waitForSandboxReadiness]
    by_cases hlt : now < deadline
    · simp only [hlt, dif_pos]
      have hu := h now
      cases hc : checkSandboxHealth sandbox (probe now) with
      | healthy p => rw [hc] at hu; simp [SandboxHealth.isHealthy] at hu
      | unhealthy r =>
        have : deadline - (now + READINESS_POLL_MS) ≤ n := by
          simp only [READINESS_POLL_MS]; omega
        exact ih (now + READINESS_POLL_MS) deadline this
    · simp [hlt]

theorem waitForSandboxReadiness_times_out (sandbox : SandboxRecord)
    (probe : Nat → FetchOutcome) (now deadline : Nat)
    (h : ∀ t, (checkSandboxHealth sandbox (probe t)).isHealthy = false) :
    waitForSandboxReadiness sandbox probe now deadline =
      .error ("sandbox " ++ sandbox.id ++ " failed to become healthy in time") :=
  waitForSandboxReadiness_times_out_aux sandbox probe h (deadline - now) now
    deadline le_rfl

/-- The survivor list of the drain loop is exactly the not-yet-aged records,
in order. -/
theorem drainPass_survivors (now : Nat) (o : String → DecommissionOracle)
    (l : List DrainingSandboxRecord) :
    (drainPass now o l).2 =
      l.filter (fun d => !drainAged now d.drainStartedAt) := by
  induction l with
  | nil => rfl
  | cons d rest ih =>
    rw [drainPass]
    by_cases hd : drainAged now d.drainStartedAt
    · simp [hd, ih]
    · simp [hd, ih]

/-- Appending a not-yet-aged record to the drain list leaves the events
unchanged and appends the record to the survivors. -/
theorem drainPass_append_of_not_aged (now : Nat)
    (o : String → DecommissionOracle) (l : List DrainingSandboxRecord)
    (d : DrainingSandboxRecord) (h : drainAged now d.drainStartedAt = false) :
    drainPass now o (l ++ [d]) =
      ((drainPass now o l).1, (drainPass now o l).2 ++ [d]) := by
  induction l with
  | nil => simp [drainPass, h]
  | cons x rest ih =>
    by_cases hx : drainAged now x.drainStartedAt <;>
      simp [drainPass, ih, hx]

/-- Every event produced by the drain loop is one of the decommission
events. -/
theorem mem_drainPass_events (now : Nat) (o : String → DecommissionOracle)
    (l : List DrainingSandboxRecord) (e : TickEvent)
    (he : e ∈ (drainPass now o l).1) :
    (∃ id, e = .decommissionGet id) ∨ (∃ id, e = .decommissionStop id) ∨
      (∃ id out, e = .decommissionResult id out) := by
  induction l with
  | nil => simp [drainPass] at he
  | cons d rest ih =>
    rw [drainPass] at he
    by_cases hd : drainAged now d.drainStartedAt
    · simp only [hd, if_true, List.mem_append] at he
      rcases he with he | he
      · unfold decommissionEvents at he
        cases hget : (o d.sandbox.id).getResult with
        | error err =>
          rw [hget] at he; simp at he
          rcases he with he | he
          · exact Or.inl ⟨_, he⟩
          · exact Or.inr (Or.inr ⟨_, _, he⟩)
        | ok u =>
          rw [hget] at he; simp at he
          rcases he with he | he | he
          · exact Or.inl ⟨_, he⟩
          · exact Or.inr (Or.inl ⟨_, he⟩)
          · exact Or.inr (Or.inr ⟨_, _, he⟩)
      · exact ih he
    · simp only [hd, if_false] at he
      exact ih he

/-- The decommission events of every aged member of the drain list appear in
the drain loop's event trace. -/
theorem drainPass_events_of_aged (now : Nat) (o : String → DecommissionOracle)
    (l : List DrainingSandboxRecord) (d : DrainingSandboxRecord)
    (hmem : d ∈ l) (haged : drainAged now d.drainStartedAt = true) :
    ∀ e ∈ decommissionEvents (o d.sandbox.id) d.sandbox.id,
      e ∈ (drainPass now o l).1 := by
  induction l with
  | nil => simp at hmem
  | cons x rest ih =>
    intro e he
    rw [drainPass]
    rcases List.mem_cons.mp hmem with hx | hrest
    · subst hx
      simp [haged, List.mem_append, he]
    · by_cases hxa : drainAged now x.drainStartedAt
      · simp only [hxa, if_true, List.mem_append]
        exact Or.inr (ih hrest e he)
      · simp only [hxa, if_false]
        exact ih hrest e he

/-- The assessment phase emits only probe and keepalive events. -/
theorem mem_assessEvents (f : Bool) (a : Option SandboxRecord)
    (h : SandboxHealth) (e : TickEvent) (he : e ∈ assessEvents f a h) :
    (∃ u, e = .probeActive u) ∨ (∃ u, e = .keepalive u) := by
  unfold assessEvents at he
  rcases a with _ | x
  · cases f <;> simp at he
  · cases f
    · simp at he
      cases hh : h.isHealthy <;> simp [hh] at he
      · exact Or.inl ⟨_, he⟩
      · rcases he with he | he
        · exact Or.inl ⟨_, he⟩
        · exact Or.inr ⟨_, he⟩
    · simp at he
      cases hh : h.isHealthy <;> simp [hh] at he
      exact Or.inr ⟨_, he⟩

/-- The assessment phase issues no promotion write. -/
theorem assessEvents_filter_promote (f : Bool) (a : Option SandboxRecord)
    (h : SandboxHealth) : (assessEvents f a h).filter isPromoteEvent = [] := by
  apply List.filter_eq_nil_iff.mpr
  intro e he hp
  rcases mem_assessEvents f a h e he with ⟨u, rfl⟩ | ⟨u, rfl⟩ <;>
    simp [isPromoteEvent] at hp

/-- The drain loop issues no promotion write. -/
theorem drainPass_filter_promote (now : Nat) (o : String → DecommissionOracle)
    (l : List DrainingSandboxRecord) :
    ((drainPass now o l).1).filter isPromoteEvent = [] := by
  apply List.filter_eq_nil_iff.mpr
  intro e he hp
  rcases mem_drainPass_events now o l e he with ⟨i, rfl⟩ | ⟨i, rfl⟩ | ⟨i, out, rfl⟩ <;>
    simp [isPromoteEvent] at hp

/-- A record whose `drainStartedAt` is not in the past is not aged (the
drain grace is positive). -/
theorem drainAged_false_of_le (now t : Nat) (h : now ≤ t) :
    drainAged now t = false := by
  simp only [drainAged, DRAIN_GRACE_MS, decide_eq_false_iff_not, not_le]
  omega

/-! ### Claims -/

/-- Claim C7: every health probe is a GET of `{baseUrl}/api/health` with a
hard 8,000 ms timeout whose expiry yields `Unhealthy` carrying the timeout
error message; a status outside `[200, 299]` yields
`Unhealthy "health-status-<code>"`; and a 2xx response whose body fails to
parse as JSON is still `Healthy` with payload `{}`. -/
theorem claim_C7_health_probe (sandbox : SandboxRecord) (msg : String)
    (status : Nat) (body : JsonBody) :
    (healthProbeRequest sandbox).method = "GET"
    ∧ (healthProbeRequest sandbox).url = sandbox.url ++ "/api/health"
    ∧ HEALTH_TIMEOUT_MS = 8000
    ∧ checkSandboxHealth sandbox (.timeoutExpired msg) = .unhealthy msg
    ∧ (¬ (200 ≤ status ∧ status ≤ 299) →
        checkSandboxHealth sandbox (.response status body) =
          .unhealthy ("health-status-" ++ toString status))
    ∧ (200 ≤ status → status ≤ 299 →
        checkSandboxHealth sandbox (.response status .malformed) = .healthy []) := by
  refine ⟨rfl, rfl, rfl, rfl, ?_, ?_⟩
  · intro h
    simp [checkSandboxHealth, h]
  · intro h1 h2
    simp [checkSandboxHealth, h1, h2]

/-- Witness for C7 at concrete probe outcomes. -/
theorem claim_C7_health_probe_witness :
    checkSandboxHealth sampleSandbox1 (.timeoutExpired "This operation was aborted") =
      .unhealthy "This operation was aborted"
    ∧ checkSandboxHealth sampleSandbox1 (.response 500 .malformed) =
      .unhealthy "health-status-500"
    ∧ checkSandboxHealth sampleSandbox1 (.response 204 .malformed) = .healthy [] :=
  ⟨(claim_C7_health_probe sampleSandbox1 "This operation was aborted" 500
      JsonBody.malformed).2.2.2.1,
   (claim_C7_health_probe sampleSandbox1 "This operation was aborted" 500
      JsonBody.malformed).2.2.2.2.1 (by decide),
   (claim_C7_health_probe sampleSandbox1 "This operation was aborted" 204
      JsonBody.malformed).2.2.2.2.2 (by decide) (by decide)⟩

/-- Claim C9: when `KEEPALIVE_TOKEN` is unset or empty, the keepalive
endpoint answers 401 whatever the `x-keepalive-token` header holds — even
an absent or empty header never matches an empty expected token. -/
theorem claim_C9_keepalive_unset_token (token expected : Option String)
    (h : expected = none ∨ expected = some "") :
    keepaliveGET token expected =
      { status := 401, body := "Missing or invalid keepalive token" } := by
  rcases h with rfl | rfl <;> simp [keepaliveGET]

/-- Witness for C9: empty expected token, matching empty header. -/
theorem claim_C9_keepalive_unset_token_witness :
    ((some "" : Option String) = none ∨ (some "" : Option String) = some "")
    ∧ keepaliveGET (some "") (some "") =
        { status := 401, body := "Missing or invalid keepalive token" }
    ∧ keepaliveGET none none =
        { status := 401, body := "Missing or invalid keepalive token" } :=
  ⟨Or.inr rfl,
   claim_C9_keepalive_unset_token (some "") (some "") (Or.inr rfl),
   claim_C9_keepalive_unset_token none none (Or.inl rfl)⟩

/-- Claim C6 counterexample: with `NEXT_APP_SKIP_MONITORING_ROUTES=true`, a
request to the `/watchdog` endpoint (src/app/watchdog/route.ts) is answered
200 "watchdog routes disabled" by the handler guard, not 404 — only the
sibling `/api/watchdog` route returns 404. -/
theorem claim_C6_counterexample :
    monitoringRoutesDisabled (some "true") = true
    ∧ (watchdogRouteGET sampleRequestPlain envFlagTrue).2 =
        .ok { status := 200, body := "watchdog routes disabled" }
    ∧ (watchdogRoutePOST sampleRequestPlain envFlagTrue).2 =
        .ok { status := 200, body := "watchdog routes disabled" }
    ∧ (apiWatchdogRouteGET sampleRequestPlain envFlagTrue).2 =
        .ok { status := 404, body := "" } := by
  refine ⟨by decide, by decide, by decide, by decide⟩

/-- Claim C6 (amended): while the `NEXT_APP_SKIP_MONITORING_ROUTES` flag is
truthy (any value other than unset, "", "false", "0", "off" after trimming
and lowercasing), the `/watchdog` route returns 200 "watchdog routes
disabled" (the handler short-circuits before ticking) and the
`/api/watchdog` route returns 404. -/
theorem claim_C6_flag_gates_routes (v : String) (req : RouteRequest)
    (env : HandlerEnv)
    (hdis : monitoringRoutesDisabled env.monitoringFlag = true) :
    (watchdogRouteGET req env).2 =
        .ok { status := 200, body := "watchdog routes disabled" }
    ∧ (watchdogRoutePOST req env).2 =
        .ok { status := 200, body := "watchdog routes disabled" }
    ∧ (apiWatchdogRouteGET req env).2 = .ok { status := 404, body := "" }
    ∧ (apiWatchdogRoutePOST req env).2 = .ok { status := 404, body := "" }
    ∧ monitoringRoutesDisabled (some v) =
        (jsToLower (jsTrim v) != "" && jsToLower (jsTrim v) != "false" &&
         jsToLower (jsTrim v) != "0" && jsToLower (jsTrim v) != "off")
    ∧ monitoringRoutesDisabled none = false := by
  refine ⟨?_, ?_, ?_, ?_, ?_, rfl⟩
  · simp [watchdogRouteGET, handler, hdis]
  · simp [watchdogRoutePOST, handler, hdis]
  · simp [apiWatchdogRouteGET, hdis]
  · simp [apiWatchdogRoutePOST, hdis]
  · by_cases hv : v = ""
    · subst hv; decide
    · simp [monitoringRoutesDisabled, hv]

/-- Witness for the amended C6 at a concrete truthy flag. -/
theorem claim_C6_flag_gates_routes_witness :
    monitoringRoutesDisabled envFlagTrue.monitoringFlag = true
    ∧ (watchdogRouteGET sampleRequestPlain envFlagTrue).2 =
        .ok { status := 200, body := "watchdog routes disabled" } :=
  ⟨by decide,
   (claim_C6_flag_gates_routes " ON " sampleRequestPlain envFlagTrue (by decide)).1⟩

/-- Claim C3 counterexample: a GET to /watchdog whose query string contains
`force` still triggers the tick with `forceProvision = false` (the route
ignores the request and calls the handler with no options). -/
theorem claim_C3_counterexample :
    "force" ∈ sampleRequestForce.queryFlags
    ∧ (watchdogRouteGET sampleRequestForce sampleHandlerEnv).1.head? =
        some (.tickLog false)
    ∧ TickEvent.tickLog true ∉
        (watchdogRouteGET sampleRequestForce sampleHandlerEnv).1 := by
  refine ⟨by decide, by decide, by decide⟩

/-- Claim C3 (amended): the /watchdog route invokes the handler with no
options for every GET or POST request, so the triggered tick always runs
with `forceProvision = false`, whether or not the query string contains the
`force` flag. -/
theorem claim_C3_route_ignores_force (req : RouteRequest) (env : HandlerEnv)
    (state : SandboxState)
    (hflag : monitoringRoutesDisabled env.monitoringFlag = false)
    (hload : env.loadResult = .ok state) :
    watchdogRouteGET req env = handler false env
    ∧ watchdogRoutePOST req env = handler false env
    ∧ (watchdogRouteGET req env).1.head? = some (.tickLog false) := by
  refine ⟨rfl, rfl, ?_⟩
  show (handler false env).1.head? = some (.tickLog false)
  unfold handler
  rw [hflag]
  simp only [Bool.false_eq_true, if_false, hload]
  cases htick : (ensureSandboxHealth state false env.tickEnv).2 with
  | ok nextState =>
    cases hps : env.persistSuccessResult with
    | ok u => simp [htick, hps]
    | error msg =>
      cases hpf : env.persistFailureResult <;>
        simp [htick, hps, handlerCatch, hpf]
  | error msg =>
    cases hpf : env.persistFailureResult <;>
      simp [htick, handlerCatch, hpf]

/-- Witness for the amended C3 at a concrete forced request. -/
theorem claim_C3_route_ignores_force_witness :
    monitoringRoutesDisabled sampleHandlerEnv.monitoringFlag = false
    ∧ sampleHandlerEnv.loadResult = .ok sampleState1
    ∧ (watchdogRouteGET sampleRequestForce sampleHandlerEnv).1.head? =
        some (.tickLog false) :=
  ⟨by decide, rfl,
   (claim_C3_route_ignores_force sampleRequestForce sampleHandlerEnv sampleState1
      (by decide) rfl).2.2⟩

/-- Claim C2 counterexample, two concrete refutations of "this holds for
every fatal error" and "a failure of this write does not prevent the
response": (a) a store read error thrown while loading `sandbox_state`
escapes the handler uncaught — no `lastFailure` write is attempted and no
500 "watchdog failure" response is produced; (b) when the catch-block
persist of `lastFailure` fails, that store write error also escapes
uncaught and the 500 "watchdog failure" response is never returned. -/
theorem claim_C2_counterexample :
    handler false envLoadFail = ([], .error "edge-config-read-failed")
    ∧ (handler false envLoadFail).2 ≠
        .ok { status := 500, body := "watchdog failure" }
    ∧ (handler false envCatchPersistFail).2 =
        .error "edge-config-update-failed: 503 unavailable"
    ∧ (handler false envCatchPersistFail).2 ≠
        .ok { status := 500, body := "watchdog failure" } := by
  refine ⟨by decide, by decide, by decide, by decide⟩

/-- Last element of a trace that ends in two appended events. -/
theorem getLast?_cons_append_two {α : Type} (x : α) (l : List α) (a b : α) :
    (x :: (l ++ [a, b])).getLast? = some b := by
  rw [← List.cons_append, show ([a, b] : List α) = [a] ++ [b] from rfl,
    ← List.append_assoc]
  exact List.getLast?_concat _

/-- Claim C2 (amended): an error thrown inside the try block — by
`ensureSandboxHealth` or by the success-path persist — sets
`lastFailure = {reason, at: now}` on the last-loaded state and persists
that state; when that catch-block persist succeeds the trigger receives a
500 response with body "watchdog failure".  A store read error while
loading `sandbox_state` is thrown before the try block and escapes the
handler uncaught, and a failure of the catch-block persist itself likewise
escapes, preventing the 500 response. -/
theorem claim_C2_failure_path (f : Bool) (env : HandlerEnv)
    (hflag : monitoringRoutesDisabled env.monitoringFlag = false) :
    (∀ e, env.loadResult = .error e → handler f env = ([], .error e))
    ∧ (∀ state msg, env.loadResult = .ok state →
        (ensureSandboxHealth state f env.tickEnv).2 = .error msg →
        env.persistFailureResult = .ok () →
        (handler f env).2 = .ok { status := 500, body := "watchdog failure" }
        ∧ (handler f env).1.getLast? = some (.persistAttempt
            { state with lastFailure := some { reason := msg, atMs := env.failAt } }))
    ∧ (∀ state nextState msg, env.loadResult = .ok state →
        (ensureSandboxHealth state f env.tickEnv).2 = .ok nextState →
        env.persistSuccessResult = .error msg →
        env.persistFailureResult = .ok () →
        (handler f env).2 = .ok { status := 500, body := "watchdog failure" }
        ∧ (handler f env).1.getLast? = some (.persistAttempt
            { state with lastFailure := some { reason := msg, atMs := env.failAt } }))
    ∧ (∀ state msg e, env.loadResult = .ok state →
        ((ensureSandboxHealth state f env.tickEnv).2 = .error msg ∨
         ((∃ ns, (ensureSandboxHealth state f env.tickEnv).2 = .ok ns) ∧
          env.persistSuccessResult = .error msg)) →
        env.persistFailureResult = .error e →
        (handler f env).2 = .error e) := by
  refine ⟨?_, ?_, ?_, ?_⟩
  · intro e he
    unfold handler
    rw [hflag]
    simp [he]
  · intro state msg hload htick hpersist
    unfold handler
    rw [hflag]
    simp only [Bool.false_eq_true, if_false, hload]
    simp [htick, handlerCatch, hpersist]
    rw [← List.cons_append]
    exact List.getLast?_concat _
  · intro state nextState msg hload htick hps hpersist
    unfold handler
    rw [hflag]
    simp only [Bool.false_eq_true, if_false, hload]
    simp [htick, hps, handlerCatch, hpersist]
    exact getLast?_cons_append_two _ _ _ _
  · intro state msg e hload hcase hpf
    unfold handler
    rw [hflag]
    simp only [Bool.false_eq_true, if_false, hload]
    rcases hcase with htick | ⟨⟨ns, htick⟩, hps⟩
    · simp [htick, handlerCatch, hpf]
    · simp [htick, hps, handlerCatch, hpf]

/-- Witness for the amended C2 at concrete oracles: a failing tick yields
the 500 response, a load error escapes uncaught, and a success-path persist
failure is caught and also yields the 500 response. -/
theorem claim_C2_failure_path_witness :
    (handler false envTickFail).2 = .ok { status := 500, body := "watchdog failure" }
    ∧ handler false envLoadFail = ([], .error "edge-config-read-failed")
    ∧ (handler false envPersistFail).2 =
        .ok { status := 500, body := "watchdog failure" } := by
  have h1 := claim_C2_failure_path false envTickFail (by decide)
  have h2 := claim_C2_failure_path false envLoadFail (by decide)
  have h3 := claim_C2_failure_path false envPersistFail (by decide)
  exact ⟨(h1.2.1 sampleState1 "provision-exhausted" rfl (by decide) rfl).1,
         h2.1 "edge-config-read-failed" rfl,
         (h3.2.2.1 sampleState1 sampleState1 "edge-config-update-failed: 500 oops"
            rfl (by decide) rfl rfl).1⟩

/-- Claim C8: `rotationDue` holds exactly when `lastRotationAt` is non-null
and `now - lastRotationAt ≥ ROTATION_INTERVAL_MS` (5 hours) — never when
`lastRotationAt` is null — and the provisioning path is entered exactly
when `forceProvision` is set, the assessed health is unhealthy (including
the synthesized reasons "force-provision-request" and "no-active-sandbox"),
or rotation is due. -/
theorem claim_C8_provision_trigger (state : SandboxState) (force : Bool)
    (env : TickEnv) :
    (rotationDue state.lastRotationAt env.now = true ↔
      ∃ t, state.lastRotationAt = some t ∧
        (t : Int) + ROTATION_INTERVAL_MS ≤ env.now)
    ∧ ROTATION_INTERVAL_MS = 5 * 60 * 60 * 1000
    ∧ rotationDue none env.now = false
    ∧ assessHealth true state.active env.activeFetch =
        .unhealthy "force-provision-request"
    ∧ (state.active = none →
        assessHealth false state.active env.activeFetch =
          .unhealthy "no-active-sandbox")
    ∧ ((∃ r, TickEvent.provisionStart r ∈ (ensureSandboxHealth state force env).1) ↔
        (force = true
         ∨ (assessHealth force state.active env.activeFetch).isHealthy = false
         ∨ rotationDue state.lastRotationAt env.now = true)) := by
  refine ⟨?_, rfl, rfl, rfl, ?_, ?_⟩
  · cases hl : state.lastRotationAt with
    | none => simp [rotationDue]
    | some t =>
      simp only [rotationDue, decide_eq_true_eq, Option.some.injEq]
      constructor
      · intro h
        exact ⟨t, rfl, by omega⟩
      · rintro ⟨t', ht', h⟩
        subst ht'
        omega
  · intro h
    simp [assessHealth, h]
  · by_cases hsp : shouldProvision force
      (assessHealth force state.active env.activeFetch)
      (rotationDue state.lastRotationAt env.now) = true
    · constructor
      · intro _
        cases force with
        | true => exact Or.inl rfl
        | false =>
          cases hh : (assessHealth false state.active env.activeFetch).isHealthy with
          | false => exact Or.inr (Or.inl rfl)
          | true =>
            refine Or.inr (Or.inr ?_)
            have := hsp
            simp [shouldProvision, hh] at this
            exact this
      · intro _
        refine ⟨provisionReason force
          (assessHealth force state.active env.activeFetch), ?_⟩
        unfold ensureSandboxHealth
        simp only [hsp, if_true]
        repeat' split
        all_goals simp [List.mem_append]
    · have hsp' : shouldProvision force
          (assessHealth force state.active env.activeFetch)
          (rotationDue state.lastRotationAt env.now) = false := by
        revert hsp
        cases shouldProvision force
          (assessHealth force state.active env.activeFetch)
          (rotationDue state.lastRotationAt env.now) <;> simp
      constructor
      · rintro ⟨r, hr⟩
        exfalso
        unfold ensureSandboxHealth at hr
        simp only [hsp', Bool.false_eq_true, if_false, List.mem_append] at hr
        rcases hr with hr | hr
        · rcases mem_assessEvents _ _ _ _ hr with ⟨u, hu⟩ | ⟨u, hu⟩ <;> simp at hu
        · rcases mem_drainPass_events _ _ _ _ hr with ⟨i, hu⟩ | ⟨i, hu⟩ |
            ⟨i, out, hu⟩ <;> simp at hu
      · intro hrhs
        exfalso
        simp only [shouldProvision] at hsp'
        rcases hrhs with h | h | h <;> rw [h] at hsp' <;> simp at hsp'

/-- Witness for C8: a first tick with no active sandbox triggers
provisioning with reason "no-active-sandbox", and rotation is not due when
`lastRotationAt` is null. -/
theorem claim_C8_provision_trigger_witness :
    rotationDue none samplePromoteEnv.now = false
    ∧ (DEFAULT_STATE.active = none →
        assessHealth false DEFAULT_STATE.active samplePromoteEnv.activeFetch =
          .unhealthy "no-active-sandbox")
    ∧ ((∃ r, TickEvent.provisionStart r ∈
          (ensureSandboxHealth DEFAULT_STATE false samplePromoteEnv).1) ↔
        (false = true
         ∨ (assessHealth false DEFAULT_STATE.active
              samplePromoteEnv.activeFetch).isHealthy = false
         ∨ rotationDue DEFAULT_STATE.lastRotationAt samplePromoteEnv.now = true)) :=
  ⟨(claim_C8_provision_trigger DEFAULT_STATE false samplePromoteEnv).2.2.1,
   (claim_C8_provision_trigger DEFAULT_STATE false samplePromoteEnv).2.2.2.2.1,
   (claim_C8_provision_trigger DEFAULT_STATE false samplePromoteEnv).2.2.2.2.2⟩

/-- Shape of a tick that does not provision: assessment events followed by
the drain loop, and the state with the surviving drain list. -/
theorem ensureSandboxHealth_no_provision (state : SandboxState) (force : Bool)
    (env : TickEnv)
    (hsp : shouldProvision force (assessHealth force state.active env.activeFetch)
        (rotationDue state.lastRotationAt env.now) = false) :
    ensureSandboxHealth state force env =
      (assessEvents force state.active
          (assessHealth force state.active env.activeFetch) ++
        (drainPass env.now env.decommission state.draining).1,
       .ok { state with
              draining := (drainPass env.now env.decommission state.draining).2 }) := by
  unfold ensureSandboxHealth
  simp [hsp]

/-- Shape of a tick whose provisioning, readiness wait and promotion all
succeed. -/
theorem ensureSandboxHealth_promote_shape (state : SandboxState) (force : Bool)
    (env : TickEnv) (fresh : SandboxRecord)
    (hsp : shouldProvision force (assessHealth force state.active env.activeFetch)
        (rotationDue state.lastRotationAt env.now) = true)
    (hprov : env.provisionResult = .ok fresh)
    (hwait : waitForSandboxReadiness fresh env.readinessProbe env.waitStart
        (env.waitStart + READINESS_DEADLINE_MS) = .ok ())
    (hpromote : env.promoteResult = .ok ()) :
    ensureSandboxHealth state force env =
      (assessEvents force state.active
          (assessHealth force state.active env.activeFetch) ++
        .provisionStart (provisionReason force
            (assessHealth force state.active env.activeFetch)) ::
        .promote (promoteOps fresh state.active) ::
        (drainPass env.now env.decommission (state.draining ++
          (match state.active with
           | some a => [{ sandbox := a, drainStartedAt := env.drainTime }]
           | none => []))).1,
       .ok { state with
              active := some { fresh with status := .healthy },
              lastRotationAt := some env.promoteTime,
              draining := (drainPass env.now env.decommission (state.draining ++
                (match state.active with
                 | some a => [{ sandbox := a, drainStartedAt := env.drainTime }]
                 | none => []))).2 }) := by
  unfold ensureSandboxHealth
  simp [hsp, hprov, hwait, hpromote]

/-- Claim C4: every draining record whose age has reached `DRAIN_GRACE_MS`
at tick time is decommissioned — `Get` is called, then `Stop` when the get
succeeds; a provider 404 (from either call) is logged `not-found` and
treated as success; other errors only produce a `failed` log entry while
the tick still completes; and the aged record is never in the surviving
drain list (so in particular it remains there only if the error is not a
404 — vacuously, since it never remains at all). -/
theorem claim_C4_drain_decommission (state : SandboxState) (force : Bool)
    (env : TickEnv) (d : DrainingSandboxRecord)
    (hsp : shouldProvision force (assessHealth force state.active env.activeFetch)
        (rotationDue state.lastRotationAt env.now) = false)
    (hmem : d ∈ state.draining)
    (haged : drainAged env.now d.drainStartedAt = true) :
    TickEvent.decommissionGet d.sandbox.id ∈ (ensureSandboxHealth state force env).1
    ∧ ((env.decommission d.sandbox.id).getResult = .ok () →
        TickEvent.decommissionStop d.sandbox.id ∈
          (ensureSandboxHealth state force env).1)
    ∧ TickEvent.decommissionResult d.sandbox.id
        (decommissionOutcome (env.decommission d.sandbox.id)) ∈
        (ensureSandboxHealth state force env).1
    ∧ (∀ err : ProviderError,
        ((env.decommission d.sandbox.id).getResult = .error err ∨
         ((env.decommission d.sandbox.id).getResult = .ok () ∧
          (env.decommission d.sandbox.id).stopResult = .error err)) →
        isSandboxNotFound err = true →
        decommissionOutcome (env.decommission d.sandbox.id) =
          DecommissionLog.notFound)
    ∧ ∃ fs, (ensureSandboxHealth state force env).2 = .ok fs ∧
        d ∉ fs.draining := by
  rw [ensureSandboxHealth_no_provision state force env hsp]
  have hlift := drainPass_events_of_aged env.now env.decommission
    state.draining d hmem haged
  refine ⟨?_, ?_, ?_, ?_, ?_⟩
  · apply List.mem_append_right
    apply hlift
    unfold decommissionEvents
    cases (env.decommission d.sandbox.id).getResult <;> simp
  · intro hget
    apply List.mem_append_right
    apply hlift
    unfold decommissionEvents
    rw [hget]
    simp
  · apply List.mem_append_right
    apply hlift
    unfold decommissionEvents
    cases (env.decommission d.sandbox.id).getResult <;> simp
  · intro err herr h404
    rcases herr with hget | ⟨hget, hstop⟩
    · unfold decommissionOutcome
      rw [hget]
      simp [h404]
    · unfold decommissionOutcome
      rw [hget, hstop]
      simp [h404]
  · refine ⟨_, rfl, ?_⟩
    simp only [drainPass_survivors, List.mem_filter]
    rintro ⟨-, hkeep⟩
    rw [haged] at hkeep
    simp at hkeep

/-- Witness for C4: an 11-minute-old record is decommissioned (get, stop,
success) and dropped from the drain list. -/
theorem claim_C4_drain_decommission_witness :
    (shouldProvision false
        (assessHealth false sampleDrainState.active sampleDrainEnv.activeFetch)
        (rotationDue sampleDrainState.lastRotationAt sampleDrainEnv.now) = false)
    ∧ sampleDrainRecord ∈ sampleDrainState.draining
    ∧ drainAged sampleDrainEnv.now sampleDrainRecord.drainStartedAt = true
    ∧ TickEvent.decommissionGet sampleDrainRecord.sandbox.id ∈
        (ensureSandboxHealth sampleDrainState false sampleDrainEnv).1 :=
  ⟨by decide, by decide, by decide,
   (claim_C4_drain_decommission sampleDrainState false sampleDrainEnv
      sampleDrainRecord (by decide) (by decide) (by decide)).1⟩

/-- Claim C1: when a tick successfully promotes a new sandbox over an
active predecessor, the promotion is one batched store write upserting
`sandbox_active_url` and `sandbox_last_known_good_url` to the new sandbox's
url and `sandbox_previous_url` to the predecessor's url, and the resulting
state has the new sandbox active with status healthy, `lastRotationAt` set
to the promotion time, and the predecessor appended to `draining` with a
`drainStartedAt` timestamp. -/
theorem claim_C1_promotion (state : SandboxState) (force : Bool)
    (env : TickEnv) (prev fresh : SandboxRecord)
    (hactive : state.active = some prev)
    (hurl : ¬ prev.url = "")
    (hsp : shouldProvision force (assessHealth force state.active env.activeFetch)
        (rotationDue state.lastRotationAt env.now) = true)
    (hprov : env.provisionResult = .ok fresh)
    (hwait : waitForSandboxReadiness fresh env.readinessProbe env.waitStart
        (env.waitStart + READINESS_DEADLINE_MS) = .ok ())
    (hpromote : env.promoteResult = .ok ())
    (hclock : env.now ≤ env.drainTime) :
    (ensureSandboxHealth state force env).1.filter isPromoteEvent =
      [.promote [.upsert EDGE_KEY_ACTIVE (.str fresh.url),
                 .upsert EDGE_KEY_LAST_KNOWN_GOOD (.str fresh.url),
                 .upsert EDGE_KEY_PREVIOUS (.str prev.url)]]
    ∧ ∃ fs, (ensureSandboxHealth state force env).2 = .ok fs
        ∧ fs.active = some { fresh with status := .healthy }
        ∧ fs.lastRotationAt = some env.promoteTime
        ∧ fs.draining = (drainPass env.now env.decommission state.draining).2 ++
            [{ sandbox := prev, drainStartedAt := env.drainTime }] := by
  rw [ensureSandboxHealth_promote_shape state force env fresh hsp hprov hwait
    hpromote, hactive]
  have hfresh : drainAged env.now env.drainTime = false :=
    drainAged_false_of_le _ _ hclock
  have hap := drainPass_append_of_not_aged env.now env.decommission
    state.draining { sandbox := prev, drainStartedAt := env.drainTime } hfresh
  constructor
  · simp [hap, List.filter_append, assessEvents_filter_promote,
      drainPass_filter_promote, isPromoteEvent, promoteOps, hurl]
  · refine ⟨_, rfl, rfl, rfl, ?_⟩
    simp [hap]

/-- Witness for C1: a forced rotation promotes sbx-2 over sbx-1. -/
theorem claim_C1_promotion_witness :
    (ensureSandboxHealth sampleState1 true samplePromoteEnv).1.filter
        isPromoteEvent =
      [.promote [.upsert EDGE_KEY_ACTIVE (.str sampleSandbox2.url),
                 .upsert EDGE_KEY_LAST_KNOWN_GOOD (.str sampleSandbox2.url),
                 .upsert EDGE_KEY_PREVIOUS (.str sampleSandbox1.url)]] :=
  (claim_C1_promotion sampleState1 true samplePromoteEnv sampleSandbox1
    sampleSandbox2 rfl (by decide) (by decide) rfl
    (by simp [samplePromoteEnv, waitForSandboxReadiness, checkSandboxHealth,
      READINESS_DEADLINE_MS])
    rfl (by decide)).1

/-- Claim C10: a predecessor pushed onto `draining` during a tick is never
decommissioned in that same tick: the drain-age comparison uses the clock
captured at the start of the tick, which does not exceed the freshly
assigned `drainStartedAt`, so the computed age is non-positive (negative
whenever the clock moved at all) and the record always lands in the
survivor list. -/
theorem claim_C10_fresh_record_survives (state : SandboxState) (force : Bool)
    (env : TickEnv) (prev fresh : SandboxRecord)
    (hactive : state.active = some prev)
    (hsp : shouldProvision force (assessHealth force state.active env.activeFetch)
        (rotationDue state.lastRotationAt env.now) = true)
    (hprov : env.provisionResult = .ok fresh)
    (hwait : waitForSandboxReadiness fresh env.readinessProbe env.waitStart
        (env.waitStart + READINESS_DEADLINE_MS) = .ok ())
    (hpromote : env.promoteResult = .ok ())
    (hclock : env.now ≤ env.drainTime) :
    drainAged env.now env.drainTime = false
    ∧ (env.now < env.drainTime →
        (env.now : Int) - (env.drainTime : Int) < 0)
    ∧ ∃ fs, (ensureSandboxHealth state force env).2 = .ok fs
        ∧ { sandbox := prev, drainStartedAt := env.drainTime } ∈ fs.draining
        ∧ fs.draining.getLast? =
            some { sandbox := prev, drainStartedAt := env.drainTime } := by
  have hfresh : drainAged env.now env.drainTime = false :=
    drainAged_false_of_le _ _ hclock
  have hap := drainPass_append_of_not_aged env.now env.decommission
    state.draining { sandbox := prev, drainStartedAt := env.drainTime } hfresh
  refine ⟨hfresh, ?_, ?_⟩
  · intro h
    omega
  · rw [ensureSandboxHealth_promote_shape state force env fresh hsp hprov hwait
      hpromote, hactive]
    refine ⟨_, rfl, ?_, ?_⟩
    · rw [hap]
      exact List.mem_append_right _ (by simp)
    · rw [hap]
      exact List.getLast?_concat _

/-- Witness for C10: in the forced rotation of the C1 witness, the
predecessor survives the drain pass of its own tick. -/
theorem claim_C10_fresh_record_survives_witness :
    drainAged samplePromoteEnv.now samplePromoteEnv.drainTime = false
    ∧ (samplePromoteEnv.now < samplePromoteEnv.drainTime →
        (samplePromoteEnv.now : Int) - (samplePromoteEnv.drainTime : Int) < 0)
    ∧ ∃ fs, (ensureSandboxHealth sampleState1 true samplePromoteEnv).2 = .ok fs
        ∧ { sandbox := sampleSandbox1,
            drainStartedAt := samplePromoteEnv.drainTime } ∈ fs.draining
        ∧ fs.draining.getLast? =
            some { sandbox := sampleSandbox1,
                   drainStartedAt := samplePromoteEnv.drainTime } :=
  claim_C10_fresh_record_survives sampleState1 true samplePromoteEnv
    sampleSandbox1 sampleSandbox2 rfl (by decide) rfl
    (by simp [samplePromoteEnv, waitForSandboxReadiness, checkSandboxHealth,
      READINESS_DEADLINE_MS])
    rfl (by decide)

/-- Claim C5: when a newly provisioned sandbox never becomes healthy within
the 10-minute readiness deadline (polled every 5,000 ms), the tick fails
fatally with reason "sandbox <id> failed to become healthy in time", no
promotion write is issued (the routing pointer keys are untouched), and the
persisted state still carries the previous active sandbox. -/
theorem claim_C5_readiness_timeout (f : Bool) (env : HandlerEnv)
    (state : SandboxState) (prev fresh : SandboxRecord)
    (hflag : monitoringRoutesDisabled env.monitoringFlag = false)
    (hload : env.loadResult = .ok state)
    (hactive : state.active = some prev)
    (hsp : shouldProvision f (assessHealth f state.active env.tickEnv.activeFetch)
        (rotationDue state.lastRotationAt env.tickEnv.now) = true)
    (hprov : env.tickEnv.provisionResult = .ok fresh)
    (hunhealthy : ∀ t, (checkSandboxHealth fresh
        (env.tickEnv.readinessProbe t)).isHealthy = false)
    (hpersist : env.persistFailureResult = .ok ()) :
    READINESS_DEADLINE_MS = 10 * 60 * 1000
    ∧ READINESS_POLL_MS = 5000
    ∧ (handler f env).2 = .ok { status := 500, body := "watchdog failure" }
    ∧ (handler f env).1.filter isPromoteEvent = []
    ∧ (handler f env).1.getLast? =
        some (.persistAttempt (readinessTimeoutState state fresh env.failAt))
    ∧ (readinessTimeoutState state fresh env.failAt).active = some prev := by
  have hwait := waitForSandboxReadiness_times_out fresh env.tickEnv.readinessProbe
    env.tickEnv.waitStart (env.tickEnv.waitStart + READINESS_DEADLINE_MS)
    hunhealthy
  have htick : ensureSandboxHealth state f env.tickEnv =
      (assessEvents f state.active
          (assessHealth f state.active env.tickEnv.activeFetch) ++
        [.provisionStart (provisionReason f
            (assessHealth f state.active env.tickEnv.activeFetch))],
       .error ("sandbox " ++ fresh.id ++ " failed to become healthy in time")) := by
    unfold ensureSandboxHealth
    simp [hsp, hprov, hwait]
  have hhandler : handler f env =
      (TickEvent.tickLog f ::
        ((assessEvents f state.active
            (assessHealth f state.active env.tickEnv.activeFetch) ++
          [.provisionStart (provisionReason f
              (assessHealth f state.active env.tickEnv.activeFetch))]) ++
          [.persistAttempt (readinessTimeoutState state fresh env.failAt)]),
       .ok { status := 500, body := "watchdog failure" }) := by
    unfold handler
    rw [hflag]
    simp only [Bool.false_eq_true, if_false, hload]
    simp [htick, handlerCatch, hpersist, readinessTimeoutState]
  refine ⟨rfl, rfl, ?_, ?_, ?_, ?_⟩
  · rw [hhandler]
  · rw [hhandler]
    simp [List.filter_append, assessEvents_filter_promote, isPromoteEvent]
  · rw [hhandler]
    rw [← List.cons_append]
    exact List.getLast?_concat _
  · simp [readinessTimeoutState, hactive]

/-- Witness for C5: sbx-2 never answers its readiness probes; the tick
fails with a 500 and no promotion write. -/
theorem claim_C5_readiness_timeout_witness :
    (handler false envTimeout).2 = .ok { status := 500, body := "watchdog failure" }
    ∧ (handler false envTimeout).1.filter isPromoteEvent = [] := by
  have h := claim_C5_readiness_timeout false envTimeout sampleState1
    sampleSandbox1 sampleSandbox2 (by decide) rfl rfl (by decide) rfl
    (fun t => rfl) rfl
  exact ⟨h.2.2.1, h.2.2.2.1⟩

end Watchdog
